import Mathlib

/-!
# Verification of the realm-core sync protocol engine

A shallow embedding, in Lean 4, of the client-server synchronization
protocol engine of this repository:

* the wire-level message codec
  (`src/realm/sync/noinst/protocol_codec.cpp`),
* the per-session state machine and its error handling
  (`src/realm/object-store/sync/sync_session.cpp`),
* the progress-tracking subsystem (`SyncProgressNotifier`, same file).

Byte buffers are modelled as `List Nat` (one `Nat` per octet), machine
integers as `Nat` (all the fields involved are non-negative counters and
sizes whose overflow behaviour is irrelevant to the properties below),
and the byte-compression collaborator as an opaque function
`List Nat → List Nat`.  Observable behaviour of the stateful session code
(callback invocations, error-handler calls, file actions) is modelled as an
explicit event trace.
-/

namespace RealmSync

/-! ## Byte-level helpers -/

/-- The bytes of an ASCII string (each character's code point).  All the
string literals this development uses are ASCII, for which this agrees with
the UTF-8 bytes the C++ code writes. -/
def strBytes (s : String) : List Nat :=
  s.data.map Char.toNat

/-- The ASCII decimal rendering of a natural number, as written by
`operator<<` on the output buffer. -/
def encNat (n : Nat) : List Nat :=
  strBytes (toString n)

/-- A single ASCII space, the field separator of the wire grammar. -/
def sp : List Nat := [32]

/-- A single ASCII newline, the header terminator of the wire grammar. -/
def nl : List Nat := [10]

/-! ## Message codec (`protocol_codec.cpp`) -/

/-- `ClientProtocol::make_bind_message`: header
`bind <session_ident> <path size> <token size> <need_client_file_ident>
<is_subserver>\n` followed by the raw `server_path` bytes immediately
followed by the raw `signed_user_token` bytes. -/
def make_bind_message (session_ident : Nat) (server_path signed_user_token : List Nat)
    (need_client_file_ident is_subserver : Bool) : List Nat :=
  strBytes "bind " ++ encNat session_ident ++ sp ++ encNat server_path.length ++ sp ++
    encNat signed_user_token.length ++ sp ++
    encNat (if need_client_file_ident then 1 else 0) ++ sp ++
    encNat (if is_subserver then 1 else 0) ++ nl ++
    server_path ++ signed_user_token

/-- Modelled from the spec: the bind header shape of section 4.1, written
from the spec's field list `{session_ident, server_path byte-length,
signed_user_token byte-length, need_client_file_ident (0/1),
is_subserver (0/1)}`, terminated by a newline. -/
def specBindHeader (session_ident : Nat) (server_path signed_user_token : List Nat)
    (need_client_file_ident is_subserver : Bool) : List Nat :=
  strBytes "bind " ++ encNat session_ident ++ sp ++ encNat server_path.length ++ sp ++
    encNat signed_user_token.length ++ sp ++
    encNat (if need_client_file_ident then 1 else 0) ++ sp ++
    encNat (if is_subserver then 1 else 0) ++ nl

/-- One changeset handed to `ClientProtocol::UploadMessageBuilder::add_changeset`. -/
structure UploadChangeset where
  client_version : Nat
  server_version : Nat
  origin_timestamp : Nat
  origin_file_ident : Nat
  changeset : List Nat
deriving DecidableEq

/-- The per-changeset record appended to the upload body by
`UploadMessageBuilder::add_changeset`:
`<client_version> <server_version> <origin_timestamp> <origin_file_ident>
<changeset size> ` then the changeset bytes. -/
def add_changeset_record (c : UploadChangeset) : List Nat :=
  encNat c.client_version ++ sp ++ encNat c.server_version ++ sp ++
    encNat c.origin_timestamp ++ sp ++ encNat c.origin_file_ident ++ sp ++
    encNat c.changeset.length ++ sp ++ c.changeset

/-- The accumulated upload body: the concatenation of the per-changeset
records, in `add_changeset` call order. -/
def upload_body (cs : List UploadChangeset) : List Nat :=
  (cs.map add_changeset_record).flatten

/-- The changeset metadata passed to
`ServerProtocol::insert_single_changeset_download_message`
(`ChangesetInfo` plus the fields read out of its `HistoryEntry`). -/
structure DownloadChangesetInfo where
  server_version : Nat
  client_version : Nat
  origin_timestamp : Nat
  origin_file_ident : Nat
  original_size : Nat
  changeset : List Nat
deriving DecidableEq

/-- `ServerProtocol::insert_single_changeset_download_message`: the
per-changeset record of a download body:
`<server_version> <client_version> <origin_timestamp> <origin_file_ident>
<original_size> <changeset size> ` then the changeset bytes. -/
def insert_single_changeset_download_message (i : DownloadChangesetInfo) : List Nat :=
  encNat i.server_version ++ sp ++ encNat i.client_version ++ sp ++
    encNat i.origin_timestamp ++ sp ++ encNat i.origin_file_ident ++ sp ++
    encNat i.original_size ++ sp ++ encNat i.changeset.length ++ sp ++ i.changeset

/-- Modelled from the spec: the five-field per-changeset record shape
`<first version field> <second version field> <origin_timestamp>
<origin_file_ident> <changeset_size> <changeset bytes>` that the spec says
both the upload and the download body use. -/
def specChangesetRecord (first_version second_version origin_timestamp origin_file_ident : Nat)
    (changeset : List Nat) : List Nat :=
  encNat first_version ++ sp ++ encNat second_version ++ sp ++
    encNat origin_timestamp ++ sp ++ encNat origin_file_ident ++ sp ++
    encNat changeset.length ++ sp ++ changeset

/-- Modelled from the spec (amended): the six-field download record shape,
with the original (uncompacted) changeset size inserted between
`<origin_file_ident>` and `<changeset_size>`. -/
def specDownloadChangesetRecord
    (server_version client_version origin_timestamp origin_file_ident original_size : Nat)
    (changeset : List Nat) : List Nat :=
  encNat server_version ++ sp ++ encNat client_version ++ sp ++
    encNat origin_timestamp ++ sp ++ encNat origin_file_ident ++ sp ++
    encNat original_size ++ sp ++ encNat changeset.length ++ sp ++ changeset

/-- The header of an upload message, as written by
`UploadMessageBuilder::make_upload_message`. -/
def upload_header (session_ident : Nat) (is_body_compressed : Bool)
    (uncompressed_body_size compressed_body_size : Nat)
    (progress_client_version progress_server_version locked_server_version : Nat) : List Nat :=
  strBytes "upload " ++ encNat session_ident ++ sp ++
    encNat (if is_body_compressed then 1 else 0) ++ sp ++
    encNat uncompressed_body_size ++ sp ++ encNat compressed_body_size ++ sp ++
    encNat progress_client_version ++ sp ++ encNat progress_server_version ++ sp ++
    encNat locked_server_version ++ nl

/-- The result of `make_upload_message`: the header fields it chose together
with the full wire bytes. -/
structure UploadMessage where
  is_body_compressed : Bool
  uncompressed_body_size : Nat
  compressed_body_size : Nat
  wire : List Nat
deriving DecidableEq

/-- `ClientProtocol::UploadMessageBuilder::make_upload_message`.  `compress`
is the opaque byte-compression collaborator
(`_impl::compression::allocate_and_compress`); the code only looks at the
length of its output and, when it is used, writes exactly those bytes. -/
def make_upload_message (compress : List Nat → List Nat) (session_ident : Nat)
    (progress_client_version progress_server_version locked_server_version : Nat)
    (body : List Nat) : UploadMessage :=
  let compressed_size := if 1024 < body.length then (compress body).length else body.length
  let is_body_compressed : Bool := decide (compressed_size < body.length)
  let compressed_body_size := if is_body_compressed then compressed_size else 0
  { is_body_compressed := is_body_compressed
    uncompressed_body_size := body.length
    compressed_body_size := compressed_body_size
    wire := upload_header session_ident is_body_compressed body.length compressed_body_size
        progress_client_version progress_server_version locked_server_version ++
      (if is_body_compressed then compress body else body) }

/-! ## Codec claims -/

/-- C3: `make_bind_message` writes the five-field bind header followed by the
raw `server_path` bytes immediately followed by the raw `signed_user_token`
bytes, with no separator; in particular the given concrete instance encodes
to exactly the bytes `"bind 7 6 3 1 0\n/realmtok"`. -/
theorem bind_message_encoding :
    (∀ (session_ident : Nat) (server_path signed_user_token : List Nat)
        (need_client_file_ident is_subserver : Bool),
      make_bind_message session_ident server_path signed_user_token
          need_client_file_ident is_subserver =
        specBindHeader session_ident server_path signed_user_token
          need_client_file_ident is_subserver ++ server_path ++ signed_user_token) ∧
    make_bind_message 7 (strBytes "/realm") (strBytes "tok") true false =
      strBytes "bind 7 6 3 1 0\n/realmtok" := by
  constructor
  · intro session_ident server_path signed_user_token need is_sub
    simp [make_bind_message, specBindHeader]
  · decide

/-- C1 counterexample: a download body's per-changeset record is *not* of the
five-field shape the spec claims (with the version fields in download order):
`insert_single_changeset_download_message` writes an additional
`<original_size>` field between `<origin_file_ident>` and
`<changeset_size>`.  Shown at the concrete changeset-info
(server_version 1, client_version 2, timestamp 3, file ident 4,
original size 5, empty changeset). -/
theorem download_record_extra_field_counterexample :
    insert_single_changeset_download_message ⟨1, 2, 3, 4, 5, []⟩ ≠
      specChangesetRecord 1 2 3 4 [] := by
  decide

/-- C1 (amended): an upload body's per-changeset record is exactly the
five-field shape
`<client_version> <server_version> <origin_timestamp> <origin_file_ident>
<changeset_size>` followed by the changeset bytes, while a download body's
per-changeset record carries one additional field: it is
`<server_version> <client_version> <origin_timestamp> <origin_file_ident>
<original_size> <changeset_size>` followed by the changeset bytes. -/
theorem changeset_record_shapes :
    (∀ c : UploadChangeset,
      add_changeset_record c =
        specChangesetRecord c.client_version c.server_version c.origin_timestamp
          c.origin_file_ident c.changeset) ∧
    (∀ i : DownloadChangesetInfo,
      insert_single_changeset_download_message i =
        specDownloadChangesetRecord i.server_version i.client_version i.origin_timestamp
          i.origin_file_ident i.original_size i.changeset) := by
  exact ⟨fun c => rfl, fun i => rfl⟩

/-- C2: the upload compression policy.  A body of at most 1024 bytes is never
compressed (`is_body_compressed = 0`, `compressed_body_size = 0`) and no
compression is even attempted (the message is independent of the
compressor); a larger body is sent compressed exactly when the compressed
form is strictly smaller than the uncompressed one, in which case the
compressed bytes are what is written, and otherwise the uncompressed body is
written with `is_body_compressed = 0`; a body of exactly 1024 bytes is never
compressed. -/
theorem upload_compression_policy (compress : List Nat → List Nat)
    (session_ident pcv psv lsv : Nat) (body : List Nat) :
    (body.length ≤ 1024 →
      (make_upload_message compress session_ident pcv psv lsv body).is_body_compressed = false ∧
      (make_upload_message compress session_ident pcv psv lsv body).compressed_body_size = 0 ∧
      ∀ compress2, make_upload_message compress session_ident pcv psv lsv body =
        make_upload_message compress2 session_ident pcv psv lsv body) ∧
    (1024 < body.length →
      ((make_upload_message compress session_ident pcv psv lsv body).is_body_compressed = true ↔
        (compress body).length < body.length) ∧
      ((compress body).length < body.length →
        (make_upload_message compress session_ident pcv psv lsv body).wire =
          upload_header session_ident true body.length (compress body).length pcv psv lsv ++
            compress body) ∧
      (¬ (compress body).length < body.length →
        (make_upload_message compress session_ident pcv psv lsv body).is_body_compressed = false ∧
        (make_upload_message compress session_ident pcv psv lsv body).wire =
          upload_header session_ident false body.length 0 pcv psv lsv ++ body)) ∧
    (body.length = 1024 →
      (make_upload_message compress session_ident pcv psv lsv body).is_body_compressed = false) := by
  refine ⟨fun h => ?_, fun h => ?_, fun h => ?_⟩
  · have h2 : ¬ 1024 < body.length := by omega
    simp [make_upload_message, h2]
  · constructor
    · simp [make_upload_message, h]
    constructor
    · intro hlt
      simp [make_upload_message, h, hlt]
    · intro hge
      simp [make_upload_message, h, hge]
  · have h2 : ¬ 1024 < body.length := by omega
    simp [make_upload_message, h2]

/-- Witness for C2 at concrete inputs: a body of exactly 1024 bytes is not
compressed, and a 2048-byte body whose "compressed" form is not smaller is
sent uncompressed. -/
theorem upload_compression_policy_witness :
    ((List.replicate 1024 0).length = 1024 ∧
      (make_upload_message (fun _ => []) 7 1 2 3 (List.replicate 1024 0)).is_body_compressed =
        false) ∧
    (1024 < (List.replicate 2048 0).length ∧
      (make_upload_message (fun l => l) 7 1 2 3
          (List.replicate 2048 0)).is_body_compressed = false) := by
  constructor
  · exact ⟨by rw [List.length_replicate],
      (upload_compression_policy (fun _ => []) 7 1 2 3 (List.replicate 1024 0)).2.2
        (by rw [List.length_replicate])⟩
  · refine ⟨by rw [List.length_replicate]; omega, ?_⟩
    refine ((upload_compression_policy (fun l => l) 7 1 2 3
      (List.replicate 2048 0)).2.1 (by rw [List.length_replicate]; omega)).2.2
        (by rw [List.length_replicate]; omega) |>.1

/-! ## Session state machine (`sync_session.cpp`)

The observable side effects of the session code (callbacks invoked, the
user-facing error handler called, metadata file actions recorded, wire
sessions created/refreshed) are modelled as an event trace; completion
callbacks are identified by opaque `Nat` handles. -/

/-- `realm::sync::ProtocolError`: exactly the codes enumerated by the
protocol-error `switch` of `SyncSession::handle_error`. -/
inductive ProtocolError
  | connection_closed
  | other_error
  | unknown_message
  | bad_syntax
  | limits_exceeded
  | wrong_protocol_version
  | bad_session_ident
  | reuse_of_session_ident
  | bound_in_other_session
  | bad_message_order
  | bad_client_version
  | illegal_realm_path
  | no_such_realm
  | bad_changeset
  | bad_changeset_header_syntax
  | bad_changeset_size
  | bad_changesets
  | bad_decompression
  | unsupported_session_feature
  | transact_before_upload
  | partial_sync_disabled
  | user_mismatch
  | too_many_sessions
  | session_closed
  | other_session_error
  | disabled_session
  | token_expired
  | bad_authentication
  | permission_denied
  | bad_client_file
  | bad_client_file_ident
  | bad_origin_file_ident
  | bad_server_file_ident
  | bad_server_version
  | client_file_blacklisted
  | diverging_histories
  | server_file_deleted
  | user_blacklisted
  | client_file_expired
  | invalid_schema_change
deriving DecidableEq

/-- `realm::sync::Client::Error`: exactly the codes enumerated by the
client-error `switch` of `SyncSession::handle_error`. -/
inductive ClientError
  | connection_closed
  | pong_timeout
  | bad_changeset
  | bad_changeset_header_syntax
  | bad_changeset_size
  | bad_client_file_ident
  | bad_client_file_ident_salt
  | bad_client_version
  | bad_compression
  | bad_error_code
  | bad_file_ident
  | bad_message_order
  | bad_origin_file_ident
  | bad_progress
  | bad_protocol_from_server
  | bad_request_ident
  | bad_server_version
  | bad_session_ident
  | bad_state_message
  | bad_syntax
  | bad_timestamp
  | client_too_new_for_server
  | client_too_old_for_server
  | connect_timeout
  | limits_exceeded
  | protocol_mismatch
  | ssl_server_cert_rejected
  | missing_protocol_feature
  | unknown_message
  | http_tunnel_failed
deriving DecidableEq

/-- An error code together with its category, as carried by
`std::error_code` in the source: the sync protocol-error category, the sync
client-error category, the websocket 401 code that `handle_error` singles
out, the `operation_aborted` code used for cancellation, and any other
category/code (represented by an opaque number). -/
inductive ErrorCode
  | protocol (e : ProtocolError)
  | client (e : ClientError)
  | websocket_401_unauthorized
  | operation_aborted
  | other (n : Nat)
deriving DecidableEq

/-- The slice of `SyncUser` the session state machine reads. -/
structure SyncUser where
  access_token_refresh_required : Bool
deriving DecidableEq

/-- `realm::ClientResyncMode`. -/
inductive ClientResyncMode
  | manual
  | discardLocal
  | recover
deriving DecidableEq

/-- `realm::SyncSessionStopPolicy`. -/
inductive SyncSessionStopPolicy
  | immediately
  | liveIndefinitely
  | afterChangesUploaded
deriving DecidableEq

/-- The slice of `SyncConfig` the session state machine reads.
`has_error_handler` stands for `m_config.error_handler` being set; `user`
for `m_config.user` (`SyncSession::user()`). -/
structure SyncConfig where
  stop_policy : SyncSessionStopPolicy
  client_resync_mode : ClientResyncMode
  cancel_waits_on_nonfatal_error : Bool
  has_error_handler : Bool
  user : Option SyncUser
deriving DecidableEq

/-- The four session lifecycle states. -/
inductive SessionState
  | active
  | dying
  | inactive
  | waitingForAccessToken
deriving DecidableEq

/-- `SyncSession::ConnectionState`. -/
inductive ConnectionState
  | disconnected
  | connecting
  | connected
deriving DecidableEq

/-- `SyncProgressNotifier::NotifierType`: the direction tag of a completion
callback or progress registration. -/
inductive Direction
  | upload
  | download
deriving DecidableEq

/-- A `SyncError` as consumed by `SyncSession::handle_error`.
`is_client_reset_requested` is modelled from the spec as an input flag of
the error: the predicate `SyncError::is_client_reset_requested()` is
declared outside the sources under verification, and `handle_error` only
branches on its value. -/
structure SyncError where
  code : ErrorCode
  is_fatal : Bool
  is_client_reset_requested : Bool
  is_unrecognized_by_client : Bool := false
deriving DecidableEq

/-- The mutable state of a `SyncSession` that the claims concern.
`wire_session` is `m_session` (the underlying `sync::Session` handle);
`completion_callbacks` is `m_completion_callbacks`, a map from a strictly
increasing request id to a (direction, callback) pair, kept here as a list
in ascending id order (`emplace_hint(end, ...)` appends). -/
structure SyncSession where
  state : SessionState
  wire_session : Option Unit
  completion_callbacks : List (Nat × Direction × Nat)
  completion_request_counter : Nat
  death_count : Nat
  force_client_resync : Bool
  connection_state : ConnectionState
  config : SyncConfig
deriving DecidableEq

/-- The observable events emitted while session operations run. -/
inductive Event
  | completion_invoked (callback : Nat) (code : ErrorCode)
  | error_handler_invoked (error : SyncError)
  | connection_change (oldState newState : ConnectionState)
  | file_action_recorded (backup : Bool)
  | user_invalidated
  | token_refresh_initiated
  | wire_session_bound
  | wire_session_refreshed
  | wire_waiter_registered (direction : Direction) (id : Nat)
  | async_upload_wait_registered (death_count : Nat)
  | unregistered_from_manager
deriving DecidableEq

/-- `SyncSession::cancel_pending_waits`: move the completion-callback map
out, release the lock, and invoke every queued completion handler with the
given error code. -/
def cancel_pending_waits (s : SyncSession) (code : ErrorCode) : SyncSession × List Event :=
  ({ s with completion_callbacks := [] },
   s.completion_callbacks.map (fun c => Event.completion_invoked c.2.2 code))

/-- `sync_session_states::Inactive::enter_state`: record the Disconnected
connection state, move the completion-callback map out, drop the wire
session, unregister from the manager (releasing the lock), then notify the
connection-change listeners (only on an actual change) and fire every
orphaned completion callback with `operation_aborted`. -/
def enter_inactive (s : SyncSession) : SyncSession × List Event :=
  let old_state := s.connection_state
  let waits := s.completion_callbacks
  ({ s with connection_state := ConnectionState.disconnected,
            completion_callbacks := [],
            wire_session := none },
   [Event.unregistered_from_manager] ++
     (if old_state ≠ ConnectionState.disconnected then
       [Event.connection_change old_state ConnectionState.disconnected]
      else []) ++
     waits.map (fun c => Event.completion_invoked c.2.2 ErrorCode.operation_aborted))

/-- `advance_state(lock, State::inactive)`. -/
def advance_inactive (s : SyncSession) : SyncSession × List Event :=
  enter_inactive { s with state := SessionState.inactive }

/-- `SyncSession::add_completion_callback`: assign the next request id,
append the (direction, callback) entry to the map, and, when a wire session
exists, register the matching native upload/download completion waiter. -/
def add_completion_callback (s : SyncSession) (direction : Direction) (callback : Nat) :
    SyncSession × List Event :=
  let id := s.completion_request_counter + 1
  let s' := { s with completion_request_counter := id,
                     completion_callbacks := s.completion_callbacks ++ [(id, direction, callback)] }
  match s.wire_session with
  | none => (s', [])
  | some _ => (s', [Event.wire_waiter_registered direction id])

/-- `user() && user()->access_token_refresh_required()`. -/
def token_refresh_required (s : SyncSession) : Bool :=
  match s.config.user with
  | some u => u.access_token_refresh_required
  | none => false

/-- One step of the `Active::enter_state` re-registration loop over the
moved-out completion-callback map. -/
def reregister_step (acc : SyncSession × List Event) (c : Nat × Direction × Nat) :
    SyncSession × List Event :=
  let r := add_completion_callback acc.1 c.2.1 c.2.2
  (r.1, acc.2 ++ r.2)

/-- `sync_session_states::Active::enter_state`: divert to
WaitingForAccessToken (and initiate a token refresh) when the access token
is stale; otherwise create and bind the wire session if absent, then
re-register every pending completion callback. -/
def enter_active (s : SyncSession) : SyncSession × List Event :=
  if token_refresh_required s then
    ({ s with state := SessionState.waitingForAccessToken }, [Event.token_refresh_initiated])
  else
    let bind :=
      match s.wire_session with
      | none => ({ s with wire_session := some () }, [Event.wire_session_bound])
      | some _ => (s, ([] : List Event))
    let callbacks_to_register := bind.1.completion_callbacks
    let s2 := { bind.1 with completion_callbacks := [] }
    let reg := callbacks_to_register.foldl reregister_step (s2, ([] : List Event))
    (reg.1, bind.2 ++ reg.2)

/-- `advance_state(lock, State::active)`. -/
def advance_active (s : SyncSession) : SyncSession × List Event :=
  enter_active { s with state := SessionState.active }

/-- `sync_session_states::Dying::enter_state`: with no wire session advance
straight to Inactive; otherwise bump the death count and register the
asynchronous upload-completion wait tagged with it. -/
def enter_dying (s : SyncSession) : SyncSession × List Event :=
  match s.wire_session with
  | none => advance_inactive s
  | some _ =>
    let dc := s.death_count + 1
    ({ s with death_count := dc }, [Event.async_upload_wait_registered dc])

/-- `advance_state(lock, State::dying)`. -/
def advance_dying (s : SyncSession) : SyncSession × List Event :=
  enter_dying { s with state := SessionState.dying }

/-- The per-state `handle_error` hook (step 1 of `SyncSession::handle_error`):
only `Dying` acts, advancing to Inactive on a fatal error. -/
def state_handle_error (s : SyncSession) (e : SyncError) : SyncSession × List Event :=
  match s.state with
  | SessionState.dying => if e.is_fatal then advance_inactive s else (s, [])
  | _ => (s, [])

/-- `SyncSession::revive_if_needed` (state dispatch):
Inactive and Dying revive to Active; the other states do nothing. -/
def revive_if_needed (s : SyncSession) : SyncSession × List Event :=
  match s.state with
  | SessionState.inactive => advance_active s
  | SessionState.dying => advance_active s
  | _ => (s, [])

/-- `SyncSession::log_out` (state dispatch). -/
def log_out (s : SyncSession) : SyncSession × List Event :=
  match s.state with
  | SessionState.active => advance_inactive s
  | SessionState.dying => advance_inactive s
  | SessionState.waitingForAccessToken => advance_inactive s
  | SessionState.inactive => (s, [])

/-- `SyncSession::close` (state dispatch): Active consults the stop policy;
WaitingForAccessToken kills the session immediately; Inactive unregisters
from the manager; Dying inherits the base no-op. -/
def close (s : SyncSession) : SyncSession × List Event :=
  match s.state with
  | SessionState.active =>
    match s.config.stop_policy with
    | SyncSessionStopPolicy.immediately => advance_inactive s
    | SyncSessionStopPolicy.liveIndefinitely => (s, [])
    | SyncSessionStopPolicy.afterChangesUploaded => advance_dying s
  | SessionState.waitingForAccessToken => advance_inactive s
  | SessionState.inactive => (s, [Event.unregistered_from_manager])
  | SessionState.dying => (s, [])

/-- `SyncSession::shutdown_and_wait` (state dispatch): Active and Dying
advance to Inactive; the other states inherit the base no-op. -/
def shutdown_and_wait (s : SyncSession) : SyncSession × List Event :=
  match s.state with
  | SessionState.active => advance_inactive s
  | SessionState.dying => advance_inactive s
  | _ => (s, [])

/-- `SyncSession::update_access_token` (state dispatch of
`access_token_updated`): every state refreshes the wire session if one
exists; WaitingForAccessToken additionally advances to Active. -/
def update_access_token (s : SyncSession) : SyncSession × List Event :=
  let refresh_evs : List Event :=
    match s.wire_session with
    | some _ => [Event.wire_session_refreshed]
    | none => []
  match s.state with
  | SessionState.waitingForAccessToken =>
    let r := advance_active s
    (r.1, refresh_evs ++ r.2)
  | _ => (s, refresh_evs)

/-- The asynchronous upload-completion wait registered by
`Dying::enter_state` firing: advance to Inactive only when the session is
still Dying and the death count still matches. -/
def upload_wait_complete (s : SyncSession) (count : Nat) : SyncSession × List Event :=
  if s.state = SessionState.dying ∧ s.death_count = count then advance_inactive s
  else (s, [])

/-- A native completion waiter registered by `add_completion_callback`
firing with error code `code`: extract the entry for its id (ignoring a
missing, already-cancelled one) and invoke the callback outside the lock. -/
def wire_completion_fired (s : SyncSession) (id : Nat) (code : ErrorCode) :
    SyncSession × List Event :=
  match s.completion_callbacks.find? (fun c => c.1 == id) with
  | some c =>
    ({ s with completion_callbacks := s.completion_callbacks.eraseP (fun c2 => c2.1 == id) },
     [Event.completion_invoked c.2.2 code])
  | none => (s, [])

/-- `enum class NextStateAfterError { none, inactive, error }`. -/
inductive NextStateAfterError
  | nsNone
  | nsInactive
  | nsError
deriving DecidableEq

/-- The outcome of the classification part of `SyncSession::handle_error`
(everything up to, and including, the two `switch` statements and the
else-category handling): either an early `return` (`silent`), or fall
through to the delivery part with a computed next state and the (possibly
annotated) error. -/
inductive ClassifyResult
  | silent (s : SyncSession) (evs : List Event)
  | proceed (s : SyncSession) (evs : List Event) (next : NextStateAfterError) (e : SyncError)
deriving DecidableEq

/-- The classification part of `SyncSession::handle_error`: the current
state's first refusal, the transparent client-reset branch, then the
protocol-error / client-error / other-category dispatch.  `none` models the
`REALM_ASSERT_RELEASE(false)` abort on `ProtocolError::token_expired`. -/
def handle_error_classify (s : SyncSession) (e : SyncError) : Option ClassifyResult :=
  let next := if e.is_fatal then NextStateAfterError.nsError else NextStateAfterError.nsNone
  let se := state_handle_error s e
  let s0 := se.1
  let evs0 := se.2
  if e.is_client_reset_requested = true ∧ s0.config.client_resync_mode ≠ ClientResyncMode.manual
  then
    let s1 := { s0 with force_client_resync := true }
    let callbacks := s1.completion_callbacks
    let s2 := { s1 with completion_callbacks := [] }
    let ai := advance_inactive s2
    let s3 := { ai.1 with completion_callbacks := callbacks }
    let rv := revive_if_needed s3
    some (ClassifyResult.silent rv.1 (evs0 ++ ai.2 ++ rv.2))
  else
    match e.code with
    | ErrorCode.protocol pe =>
      match pe with
      | ProtocolError.connection_closed => some (ClassifyResult.silent s0 evs0)
      | ProtocolError.other_error => some (ClassifyResult.silent s0 evs0)
      | ProtocolError.session_closed => some (ClassifyResult.silent s0 evs0)
      | ProtocolError.other_session_error => some (ClassifyResult.silent s0 evs0)
      | ProtocolError.disabled_session => some (ClassifyResult.silent s0 evs0)
      | ProtocolError.token_expired => none
      | ProtocolError.bad_authentication =>
        let cw := cancel_pending_waits s0 e.code
        let invalidate_evs :=
          if s0.config.user.isSome then [Event.user_invalidated] else ([] : List Event)
        some (ClassifyResult.proceed cw.1 (evs0 ++ cw.2 ++ invalidate_evs)
          NextStateAfterError.nsNone e)
      | ProtocolError.permission_denied =>
        some (ClassifyResult.proceed s0 (evs0 ++ [Event.file_action_recorded false])
          NextStateAfterError.nsInactive e)
      | ProtocolError.bad_client_file =>
        some (ClassifyResult.proceed s0 (evs0 ++ [Event.file_action_recorded true])
          NextStateAfterError.nsInactive e)
      | ProtocolError.bad_client_file_ident =>
        some (ClassifyResult.proceed s0 (evs0 ++ [Event.file_action_recorded true])
          NextStateAfterError.nsInactive e)
      | ProtocolError.bad_origin_file_ident =>
        some (ClassifyResult.proceed s0 (evs0 ++ [Event.file_action_recorded true])
          NextStateAfterError.nsInactive e)
      | ProtocolError.bad_server_file_ident =>
        some (ClassifyResult.proceed s0 (evs0 ++ [Event.file_action_recorded true])
          NextStateAfterError.nsInactive e)
      | ProtocolError.bad_server_version =>
        some (ClassifyResult.proceed s0 (evs0 ++ [Event.file_action_recorded true])
          NextStateAfterError.nsInactive e)
      | ProtocolError.client_file_blacklisted =>
        some (ClassifyResult.proceed s0 (evs0 ++ [Event.file_action_recorded true])
          NextStateAfterError.nsInactive e)
      | ProtocolError.diverging_histories =>
        some (ClassifyResult.proceed s0 (evs0 ++ [Event.file_action_recorded true])
          NextStateAfterError.nsInactive e)
      | ProtocolError.server_file_deleted =>
        some (ClassifyResult.proceed s0 (evs0 ++ [Event.file_action_recorded true])
          NextStateAfterError.nsInactive e)
      | ProtocolError.user_blacklisted =>
        some (ClassifyResult.proceed s0 (evs0 ++ [Event.file_action_recorded true])
          NextStateAfterError.nsInactive e)
      | ProtocolError.client_file_expired =>
        some (ClassifyResult.proceed s0 (evs0 ++ [Event.file_action_recorded true])
          NextStateAfterError.nsInactive e)
      | ProtocolError.invalid_schema_change =>
        some (ClassifyResult.proceed s0 (evs0 ++ [Event.file_action_recorded true])
          NextStateAfterError.nsInactive e)
      | _ => some (ClassifyResult.proceed s0 evs0 next e)
    | ErrorCode.client ce =>
      match ce with
      | ClientError.connection_closed => some (ClassifyResult.silent s0 evs0)
      | ClientError.pong_timeout => some (ClassifyResult.silent s0 evs0)
      | _ => some (ClassifyResult.proceed s0 evs0 next e)
    | ErrorCode.websocket_401_unauthorized =>
      match s0.config.user with
      | some _ => some (ClassifyResult.silent s0 (evs0 ++ [Event.token_refresh_initiated]))
      | none =>
        some (ClassifyResult.proceed s0 evs0 next { e with is_unrecognized_by_client := true })
    | ErrorCode.operation_aborted =>
      some (ClassifyResult.proceed s0 evs0 next { e with is_unrecognized_by_client := true })
    | ErrorCode.other _ =>
      some (ClassifyResult.proceed s0 evs0 next { e with is_unrecognized_by_client := true })

/-- The delivery part of `SyncSession::handle_error`: suppress everything if
the session is already Inactive, otherwise apply the computed next-state
outcome and finally invoke the user error handler (if one is configured)
exactly once. -/
def handle_error_finish : ClassifyResult → SyncSession × List Event
  | ClassifyResult.silent s evs => (s, evs)
  | ClassifyResult.proceed s evs next e =>
    if s.state = SessionState.inactive then (s, evs)
    else
      let step :=
        match next with
        | NextStateAfterError.nsNone =>
          if s.config.cancel_waits_on_nonfatal_error then cancel_pending_waits s e.code
          else (s, [])
        | NextStateAfterError.nsInactive =>
          let cw :=
            if e.is_client_reset_requested then cancel_pending_waits s e.code else (s, [])
          let ai := advance_inactive cw.1
          (ai.1, cw.2 ++ ai.2)
        | NextStateAfterError.nsError => cancel_pending_waits s e.code
      let handler_evs :=
        if s.config.has_error_handler then [Event.error_handler_invoked e] else ([] : List Event)
      (step.1, evs ++ step.2 ++ handler_evs)

/-- `SyncSession::handle_error`.  `none` models the
`REALM_ASSERT_RELEASE(false)` abort. -/
def handle_error (s : SyncSession) (e : SyncError) : Option (SyncSession × List Event) :=
  (handle_error_classify s e).map handle_error_finish

/-! ## Event-trace helpers -/

/-- Whether an event is an invocation of the user-facing error handler. -/
def isErrorHandlerEvent : Event → Bool
  | Event.error_handler_invoked _ => true
  | _ => false

/-- How many times a trace invokes the user-facing error handler. -/
def countErrorHandler (evs : List Event) : Nat :=
  (evs.filter isErrorHandlerEvent).length

/-- Whether an event is an invocation of a completion callback. -/
def isCompletionEvent : Event → Bool
  | Event.completion_invoked _ _ => true
  | _ => false

/-! ## Helper lemmas about event traces and the transition functions -/

theorem filter_completion_of_cancel (l : List (Nat × Direction × Nat)) (code : ErrorCode) :
    (l.map (fun c => Event.completion_invoked c.2.2 code)).filter isCompletionEvent =
      l.map (fun c => Event.completion_invoked c.2.2 code) := by
  induction l with
  | nil => rfl
  | cons a t ih => simp [isCompletionEvent, ih]

theorem filter_handler_of_cancel (l : List (Nat × Direction × Nat)) (code : ErrorCode) :
    (l.map (fun c => Event.completion_invoked c.2.2 code)).filter isErrorHandlerEvent = [] := by
  induction l with
  | nil => rfl
  | cons a t ih => simp [isErrorHandlerEvent, ih]

theorem filter_handler_cancel_pending_waits (s : SyncSession) (code : ErrorCode) :
    (cancel_pending_waits s code).2.filter isErrorHandlerEvent = [] :=
  filter_handler_of_cancel _ _

theorem filter_handler_advance_inactive (s : SyncSession) :
    (advance_inactive s).2.filter isErrorHandlerEvent = [] := by
  simp only [advance_inactive, enter_inactive, List.filter_append, filter_handler_of_cancel]
  split <;> simp [isErrorHandlerEvent]

theorem filter_handler_state_handle_error (s : SyncSession) (e : SyncError) :
    (state_handle_error s e).2.filter isErrorHandlerEvent = [] := by
  unfold state_handle_error
  split
  · split
    · exact filter_handler_advance_inactive s
    · rfl
  · rfl

/-- The Active re-registration loop leaves all session fields but the
callback map and the request counter alone, reproduces exactly the moved-out
(direction, callback) pairs, and emits only wire-waiter registrations. -/
theorem reregister_foldl (cbs : List (Nat × Direction × Nat)) (s : SyncSession)
    (acc : List Event) :
    ((cbs.foldl reregister_step (s, acc)).1.state = s.state ∧
     (cbs.foldl reregister_step (s, acc)).1.wire_session = s.wire_session ∧
     (cbs.foldl reregister_step (s, acc)).1.config = s.config ∧
     (cbs.foldl reregister_step (s, acc)).1.force_client_resync = s.force_client_resync) ∧
    (cbs.foldl reregister_step (s, acc)).1.completion_callbacks.map (fun c => c.2) =
      s.completion_callbacks.map (fun c => c.2) ++ cbs.map (fun c => c.2) ∧
    (cbs.foldl reregister_step (s, acc)).2.filter isCompletionEvent =
      acc.filter isCompletionEvent ∧
    (cbs.foldl reregister_step (s, acc)).2.filter isErrorHandlerEvent =
      acc.filter isErrorHandlerEvent := by
  induction cbs generalizing s acc with
  | nil => simp
  | cons c t ih =>
    simp only [List.foldl_cons]
    have hstep : reregister_step (s, acc) c =
        ({ s with completion_request_counter := s.completion_request_counter + 1,
                  completion_callbacks :=
                    s.completion_callbacks ++ [(s.completion_request_counter + 1, c.2)] },
         acc ++ (match s.wire_session with
                 | none => ([] : List Event)
                 | some _ =>
                   [Event.wire_waiter_registered c.2.1 (s.completion_request_counter + 1)])) := by
      cases hw : s.wire_session <;> simp [reregister_step, add_completion_callback, hw]
    rw [hstep]
    refine ⟨?_, ?_, ?_, ?_⟩
    · exact (ih _ _).1
    · rw [(ih _ _).2.1]
      simp
    · rw [(ih _ _).2.2.1]
      cases hw : s.wire_session <;> simp [isCompletionEvent, List.filter_append]
    · rw [(ih _ _).2.2.2]
      cases hw : s.wire_session <;> simp [isErrorHandlerEvent, List.filter_append]

theorem filter_handler_advance_active (s : SyncSession) :
    (advance_active s).2.filter isErrorHandlerEvent = [] := by
  unfold advance_active enter_active
  split
  · rfl
  · simp only [List.filter_append]
    rw [(reregister_foldl _ _ _).2.2.2]
    split <;> simp [isErrorHandlerEvent]

theorem filter_completion_advance_active (s : SyncSession) :
    (advance_active s).2.filter isCompletionEvent = [] := by
  unfold advance_active enter_active
  split
  · rfl
  · simp only [List.filter_append]
    rw [(reregister_foldl _ _ _).2.2.1]
    split <;> simp [isCompletionEvent]

theorem filter_handler_revive_if_needed (s : SyncSession) :
    (revive_if_needed s).2.filter isErrorHandlerEvent = [] := by
  unfold revive_if_needed
  split
  · exact filter_handler_advance_active _
  · exact filter_handler_advance_active _
  · rfl

theorem revive_if_needed_inactive (s : SyncSession) (h : s.state = SessionState.inactive) :
    revive_if_needed s = advance_active s := by
  unfold revive_if_needed
  rw [h]

theorem filter_completion_advance_inactive (s : SyncSession) :
    (advance_inactive s).2.filter isCompletionEvent =
      s.completion_callbacks.map
        (fun c => Event.completion_invoked c.2.2 ErrorCode.operation_aborted) := by
  simp only [advance_inactive, enter_inactive, List.filter_append]
  rw [filter_completion_of_cancel]
  split <;> simp [isCompletionEvent]

/-- When the access token is fresh, reviving to Active keeps the state at
Active, preserves the resync flag and reproduces exactly the pending
(direction, callback) pairs. -/
theorem advance_active_fresh (s : SyncSession) (h : token_refresh_required s = false) :
    (advance_active s).1.state = SessionState.active ∧
    (advance_active s).1.force_client_resync = s.force_client_resync ∧
    (advance_active s).1.completion_callbacks.map (fun c => c.2) =
      s.completion_callbacks.map (fun c => c.2) := by
  have h' : token_refresh_required { s with state := SessionState.active } = false := h
  unfold advance_active enter_active
  rw [if_neg (by simp [h'])]
  cases hw : s.wire_session <;>
    simp only [hw] <;>
    exact ⟨(reregister_foldl _ _ _).1.1, (reregister_foldl _ _ _).1.2.2.2, by
      rw [(reregister_foldl _ _ _).2.1]; simp⟩

/-! ## Claim C4: entering Inactive cancels every pending completion callback -/

/-- C4: whenever the session advances to the Inactive state, every pending
completion callback in the map is invoked exactly once with the
`operation_aborted` cancellation code (the trace of completion-callback
invocations is exactly the map's entries, in order), and afterwards the
completion-callback map is empty. -/
theorem inactive_cancels_all_pending (s : SyncSession) :
    (advance_inactive s).1.completion_callbacks = [] ∧
    (advance_inactive s).2.filter isCompletionEvent =
      s.completion_callbacks.map
        (fun c => Event.completion_invoked c.2.2 ErrorCode.operation_aborted) :=
  ⟨rfl, filter_completion_advance_inactive s⟩

/-! ## Claim C5: client reset under an automatic resync mode is transparent -/

/-- C5: for a session in the Active state whose resync mode is DiscardLocal
or Recover (and whose access token is fresh, so that reviving lands back in
Active), `handle_error` on a client-reset-requested error invokes the user
error handler zero times, invokes no completion callback (none are
cancelled by the intermediate Inactive transition), sets the
`force_client_resync` flag, and leaves the session in the Active state
again, with all pending (direction, callback) pairs preserved. -/
theorem client_reset_transparent (s : SyncSession) (e : SyncError)
    (hstate : s.state = SessionState.active)
    (hmode : s.config.client_resync_mode = ClientResyncMode.discardLocal ∨
      s.config.client_resync_mode = ClientResyncMode.recover)
    (hreset : e.is_client_reset_requested = true)
    (htoken : token_refresh_required s = false) :
    ∃ s' evs, handle_error s e = some (s', evs) ∧
      countErrorHandler evs = 0 ∧
      evs.filter isCompletionEvent = [] ∧
      s'.state = SessionState.active ∧
      s'.force_client_resync = true ∧
      s'.completion_callbacks.map (fun c => c.2) =
        s.completion_callbacks.map (fun c => c.2) := by
  have hmode' : ¬ s.config.client_resync_mode = ClientResyncMode.manual := by
    rcases hmode with h | h <;> simp [h]
  unfold handle_error handle_error_classify
  simp only [state_handle_error, hstate]
  rw [if_pos ⟨hreset, hmode'⟩]
  simp only [Option.map_some', handle_error_finish]
  refine ⟨_, _, rfl, ?_, ?_, ?_, ?_, ?_⟩
  · rw [revive_if_needed_inactive _ rfl]
    simp [countErrorHandler, List.filter_append, filter_handler_advance_inactive,
      filter_handler_advance_active]
  · rw [revive_if_needed_inactive _ rfl]
    simp [List.filter_append, filter_completion_advance_inactive,
      filter_completion_advance_active]
  · rw [revive_if_needed_inactive _ rfl]
    refine (advance_active_fresh _ ?_).1
    exact htoken
  · rw [revive_if_needed_inactive _ rfl]
    refine (advance_active_fresh _ ?_).2.1
    exact htoken
  · rw [revive_if_needed_inactive _ rfl]
    refine (advance_active_fresh _ ?_).2.2
    exact htoken

/-! ## Claim C6: suppression when Inactive, and at-most-once delivery -/

/-- The events accumulated by the classification part of `handle_error`. -/
def classifyEvents : ClassifyResult → List Event
  | ClassifyResult.silent _ evs => evs
  | ClassifyResult.proceed _ evs _ _ => evs

/-- Classification never invokes the user error handler: handler invocation
only happens in the final delivery step. -/
theorem classify_no_handler (s : SyncSession) (e : SyncError) (r : ClassifyResult)
    (h : handle_error_classify s e = some r) :
    (classifyEvents r).filter isErrorHandlerEvent = [] := by
  unfold handle_error_classify at h
  simp only [] at h
  split at h
  · obtain rfl := Option.some.inj h
    simp [classifyEvents, List.filter_append, filter_handler_state_handle_error,
      filter_handler_advance_inactive, filter_handler_revive_if_needed]
  · split at h
    all_goals first
    | exact Option.noConfusion h
    | (obtain rfl := Option.some.inj h
       simp [classifyEvents, List.filter_append, filter_handler_state_handle_error,
         filter_handler_advance_inactive, filter_handler_revive_if_needed,
         filter_handler_cancel_pending_waits, isErrorHandlerEvent,
         apply_ite (List.filter isErrorHandlerEvent)])
    | (split at h
       all_goals first
       | exact Option.noConfusion h
       | (obtain rfl := Option.some.inj h
          simp [classifyEvents, List.filter_append, filter_handler_state_handle_error,
            filter_handler_advance_inactive, filter_handler_revive_if_needed,
            filter_handler_cancel_pending_waits, isErrorHandlerEvent,
            apply_ite (List.filter isErrorHandlerEvent)]))

/-- The delivery part invokes the user error handler at most once. -/
theorem filter_handler_finish_le (cr : ClassifyResult)
    (hev : (classifyEvents cr).filter isErrorHandlerEvent = []) :
    countErrorHandler (handle_error_finish cr).2 ≤ 1 := by
  cases cr with
  | silent s evs =>
    simp only [classifyEvents] at hev
    simp [handle_error_finish, countErrorHandler, hev]
  | proceed s evs next e =>
    simp only [classifyEvents] at hev
    simp only [handle_error_finish]
    split
    · simp [countErrorHandler, hev]
    · cases next <;>
        simp only [countErrorHandler, List.filter_append, List.length_append, hev] <;>
        (repeat' split) <;>
        simp [filter_handler_cancel_pending_waits, filter_handler_advance_inactive,
          isErrorHandlerEvent, List.filter_append]

/-- C6: whenever the session state is Inactive when classification of an
error completes, `handle_error` does not invoke the user error handler at
all for that error (the delivery step is suppressed and the trace of the
classification step contains no handler invocation); and no single call to
`handle_error` ever invokes the user error handler more than once. -/
theorem error_delivery_suppressed_and_at_most_once :
    (∀ (s : SyncSession) (e : SyncError) s1 evs1 next e1,
      handle_error_classify s e = some (ClassifyResult.proceed s1 evs1 next e1) →
      s1.state = SessionState.inactive →
      handle_error s e = some (s1, evs1) ∧ countErrorHandler evs1 = 0) ∧
    (∀ (s : SyncSession) (e : SyncError) r, handle_error s e = some r →
      countErrorHandler r.2 ≤ 1) := by
  constructor
  · intro s e s1 evs1 next e1 h hst
    have hev := classify_no_handler s e _ h
    simp only [classifyEvents] at hev
    refine ⟨?_, ?_⟩
    · simp [handle_error, h, handle_error_finish, hst]
    · simp [countErrorHandler, hev]
  · intro s e r h
    obtain ⟨cr, hcr, rfl⟩ : ∃ cr, handle_error_classify s e = some cr ∧
        handle_error_finish cr = r := by
      unfold handle_error at h
      cases hc : handle_error_classify s e with
      | none => simp [hc] at h
      | some cr => exact ⟨cr, rfl, by simpa [hc] using h⟩
    exact filter_handler_finish_le cr (classify_no_handler s e cr hcr)

/-! ## Claim C9: totality of error classification -/

/-- A concrete session used to probe `handle_error`. -/
def probe_session : SyncSession :=
  { state := SessionState.active
    wire_session := some ()
    completion_callbacks := []
    completion_request_counter := 0
    death_count := 0
    force_client_resync := false
    connection_state := ConnectionState.connected
    config := { stop_policy := SyncSessionStopPolicy.immediately
                client_resync_mode := ClientResyncMode.manual
                cancel_waits_on_nonfatal_error := false
                has_error_handler := true
                user := none } }

/-- C9 counterexample: classification is *not* total over the known protocol
error vocabulary: `handle_error` on the protocol error code `token_expired`
does not complete classification normally but aborts (the
`REALM_ASSERT_RELEASE(false)` in the `token_expired` case, modelled as
`none`), shown at a concrete session and error. -/
theorem token_expired_aborts :
    handle_error probe_session
      { code := ErrorCode.protocol ProtocolError.token_expired, is_fatal := false,
        is_client_reset_requested := false } = none := by
  decide

/-- C9 (amended): error classification in `handle_error` completes normally
(without aborting) for every error whose code is not the protocol error
`token_expired` — in particular for every other protocol-error code and for
every client-error code — while `token_expired` triggers an unconditional
release assertion. -/
theorem handle_error_total_except_token_expired (s : SyncSession) (e : SyncError)
    (h : e.code ≠ ErrorCode.protocol ProtocolError.token_expired) :
    (handle_error s e).isSome = true := by
  obtain ⟨code, fatal, reset, unrec⟩ := e
  unfold handle_error
  rw [Option.isSome_map']
  unfold handle_error_classify
  simp only []
  split
  · rfl
  · cases code with
    | protocol pe => cases pe <;> simp_all
    | client ce => cases ce <;> simp
    | websocket_401_unauthorized =>
      dsimp only []
      split <;> rfl
    | operation_aborted => simp
    | other n => simp

/-- Witness for C9 at a concrete input: `handle_error` completes on the
protocol error `connection_closed`. -/
theorem handle_error_total_witness :
    (handle_error probe_session
      { code := ErrorCode.protocol ProtocolError.connection_closed, is_fatal := false,
        is_client_reset_requested := false }).isSome = true :=
  handle_error_total_except_token_expired _ _ (by decide)

/-! ## Witnesses for C5 and C6 -/

/-- A concrete active session with one pending upload completion callback
and resync mode DiscardLocal. -/
def reset_demo_session : SyncSession :=
  { state := SessionState.active
    wire_session := some ()
    completion_callbacks := [(1, Direction.upload, 11)]
    completion_request_counter := 1
    death_count := 0
    force_client_resync := false
    connection_state := ConnectionState.connected
    config := { stop_policy := SyncSessionStopPolicy.afterChangesUploaded
                client_resync_mode := ClientResyncMode.discardLocal
                cancel_waits_on_nonfatal_error := false
                has_error_handler := true
                user := none } }

/-- A concrete client-reset-requested error. -/
def reset_demo_error : SyncError :=
  { code := ErrorCode.protocol ProtocolError.bad_server_file_ident, is_fatal := true,
    is_client_reset_requested := true }

/-- Witness for C5 at the concrete session and error above. -/
theorem client_reset_transparent_witness :
    ∃ s' evs, handle_error reset_demo_session reset_demo_error = some (s', evs) ∧
      countErrorHandler evs = 0 ∧
      evs.filter isCompletionEvent = [] ∧
      s'.state = SessionState.active ∧
      s'.force_client_resync = true ∧
      s'.completion_callbacks.map (fun c => c.2) =
        reset_demo_session.completion_callbacks.map (fun c => c.2) :=
  client_reset_transparent reset_demo_session reset_demo_error rfl (Or.inl rfl) rfl rfl

/-- A concrete dying session with one pending download completion callback. -/
def dying_demo_session : SyncSession :=
  { state := SessionState.dying
    wire_session := some ()
    completion_callbacks := [(1, Direction.download, 5)]
    completion_request_counter := 1
    death_count := 2
    force_client_resync := false
    connection_state := ConnectionState.connected
    config := { stop_policy := SyncSessionStopPolicy.immediately
                client_resync_mode := ClientResyncMode.manual
                cancel_waits_on_nonfatal_error := false
                has_error_handler := true
                user := none } }

/-- A concrete fatal protocol error of the pass-through kind. -/
def dying_demo_error : SyncError :=
  { code := ErrorCode.protocol ProtocolError.unknown_message, is_fatal := true,
    is_client_reset_requested := false }

/-- The session after the Dying state's `handle_error` hook advanced it to
Inactive. -/
def dying_demo_after : SyncSession :=
  { state := SessionState.inactive
    wire_session := none
    completion_callbacks := []
    completion_request_counter := 1
    death_count := 2
    force_client_resync := false
    connection_state := ConnectionState.disconnected
    config := dying_demo_session.config }

/-- The events of that transition. -/
def dying_demo_events : List Event :=
  [Event.unregistered_from_manager,
   Event.connection_change ConnectionState.connected ConnectionState.disconnected,
   Event.completion_invoked 5 ErrorCode.operation_aborted]

/-- Witness for C6 at the concrete dying session and fatal error above:
classification ends with the session Inactive, so the error is not
delivered to the user error handler. -/
theorem error_delivery_suppressed_witness :
    handle_error dying_demo_session dying_demo_error = some (dying_demo_after, dying_demo_events) ∧
    countErrorHandler dying_demo_events = 0 :=
  error_delivery_suppressed_and_at_most_once.1 dying_demo_session dying_demo_error
    dying_demo_after dying_demo_events NextStateAfterError.nsError dying_demo_error
    (by decide) (by decide)

/-! ## Claim C10: a quiescent Dying session always has a wire session -/

/-- The public operations of a `SyncSession` (plus the asynchronous
completions that re-enter it), as a command alphabet for the reachability
relation. -/
inductive Cmd
  | logOutCmd
  | closeCmd
  | reviveCmd
  | shutdownCmd
  | accessTokenCmd
  | handleErrCmd (e : SyncError)
  | uploadWaitCmd (count : Nat)
  | waitForCompletionCmd (direction : Direction) (callback : Nat)
  | wireCompletionCmd (id : Nat) (code : ErrorCode)

/-- One public operation running to completion on a quiescent session.
`none` models the `handle_error` release-assertion abort. -/
def session_step (s : SyncSession) : Cmd → Option (SyncSession × List Event)
  | Cmd.logOutCmd => some (log_out s)
  | Cmd.closeCmd => some (close s)
  | Cmd.reviveCmd => some (revive_if_needed s)
  | Cmd.shutdownCmd => some (shutdown_and_wait s)
  | Cmd.accessTokenCmd => some (update_access_token s)
  | Cmd.handleErrCmd e => handle_error s e
  | Cmd.uploadWaitCmd count => some (upload_wait_complete s count)
  | Cmd.waitForCompletionCmd direction callback =>
    some (add_completion_callback s direction callback)
  | Cmd.wireCompletionCmd id code => some (wire_completion_fired s id code)

/-- The `SyncSession` constructor: sessions start in the Inactive state with
no wire session and no pending callbacks. -/
def initial_session (config : SyncConfig) (force_client_resync : Bool) : SyncSession :=
  { state := SessionState.inactive
    wire_session := none
    completion_callbacks := []
    completion_request_counter := 0
    death_count := 0
    force_client_resync := force_client_resync
    connection_state := ConnectionState.disconnected
    config := config }

/-- The session states reachable from construction by running public
operations to completion. -/
inductive Reachable : SyncSession → Prop
  | init (config : SyncConfig) (force : Bool) : Reachable (initial_session config force)
  | step (s : SyncSession) (c : Cmd) (s' : SyncSession) (evs : List Event) :
      Reachable s → session_step s c = some (s', evs) → Reachable s'

/-- The invariant: a (quiescent) Dying session owns a wire session. -/
def DyingHasWire (s : SyncSession) : Prop :=
  s.state = SessionState.dying → s.wire_session.isSome = true

theorem dhw_advance_inactive (s : SyncSession) : DyingHasWire (advance_inactive s).1 := by
  intro h
  exact absurd h (by simp [advance_inactive, enter_inactive])

theorem advance_active_state_not_dying (s : SyncSession) :
    ¬ (advance_active s).1.state = SessionState.dying := by
  unfold advance_active enter_active
  split
  · simp
  · cases hw : s.wire_session <;> simp only [hw] <;>
      (intro h; rw [(reregister_foldl _ _ _).1.1] at h; exact absurd h (by simp))

theorem dhw_advance_active (s : SyncSession) : DyingHasWire (advance_active s).1 :=
  fun h => absurd h (advance_active_state_not_dying s)

theorem dhw_advance_dying (s : SyncSession) : DyingHasWire (advance_dying s).1 := by
  unfold advance_dying enter_dying
  cases hw : s.wire_session with
  | none => exact dhw_advance_inactive _
  | some u => exact fun _ => rfl

theorem dhw_revive_if_needed (s : SyncSession) (h : DyingHasWire s) :
    DyingHasWire (revive_if_needed s).1 := by
  unfold revive_if_needed
  split
  · exact dhw_advance_active _
  · exact dhw_advance_active _
  · exact h

theorem dhw_cancel_pending_waits (s : SyncSession) (code : ErrorCode) (h : DyingHasWire s) :
    DyingHasWire (cancel_pending_waits s code).1 := h

theorem dhw_state_handle_error (s : SyncSession) (e : SyncError) (h : DyingHasWire s) :
    DyingHasWire (state_handle_error s e).1 := by
  unfold state_handle_error
  split
  · split
    · exact dhw_advance_inactive _
    · exact h
  · exact h

/-- The session component a classification outcome carries forward. -/
def classifySession : ClassifyResult → SyncSession
  | ClassifyResult.silent s _ => s
  | ClassifyResult.proceed s _ _ _ => s

theorem dhw_classify (s : SyncSession) (e : SyncError) (cr : ClassifyResult)
    (h : DyingHasWire s) (hc : handle_error_classify s e = some cr) :
    DyingHasWire (classifySession cr) := by
  have h0 := dhw_state_handle_error s e h
  unfold handle_error_classify at hc
  simp only [] at hc
  split at hc
  · obtain rfl := Option.some.inj hc
    refine dhw_revive_if_needed _ ?_
    intro hst
    exact absurd hst (by simp [advance_inactive, enter_inactive])
  · split at hc
    all_goals first
    | exact Option.noConfusion hc
    | (obtain rfl := Option.some.inj hc; exact h0)
    | (split at hc
       all_goals first
       | exact Option.noConfusion hc
       | (obtain rfl := Option.some.inj hc; exact h0))

theorem dhw_finish (cr : ClassifyResult) (h : DyingHasWire (classifySession cr)) :
    DyingHasWire (handle_error_finish cr).1 := by
  cases cr with
  | silent s evs => exact h
  | proceed s evs next e =>
    simp only [handle_error_finish, classifySession] at h ⊢
    split
    · exact h
    · cases next with
      | nsNone =>
        by_cases hc : s.config.cancel_waits_on_nonfatal_error = true
        · rw [if_pos hc]
          exact h
        · rw [if_neg hc]
          exact h
      | nsInactive => exact dhw_advance_inactive _
      | nsError => exact h

theorem fst_of_some_eq {x : SyncSession × List Event} {s' : SyncSession} {evs : List Event}
    (h : some x = some (s', evs)) : x.1 = s' := by
  rw [Option.some.inj h]

theorem dhw_handle_error (s : SyncSession) (e : SyncError) (s' : SyncSession) (evs : List Event)
    (h : DyingHasWire s) (he : handle_error s e = some (s', evs)) : DyingHasWire s' := by
  unfold handle_error at he
  cases hc : handle_error_classify s e with
  | none => rw [hc] at he; exact Option.noConfusion he
  | some cr =>
    rw [hc] at he
    simp only [Option.map_some'] at he
    rw [← fst_of_some_eq he]
    exact dhw_finish cr (dhw_classify s e cr h hc)

theorem dhw_session_step (s : SyncSession) (c : Cmd) (s' : SyncSession) (evs : List Event)
    (h : DyingHasWire s) (hs : session_step s c = some (s', evs)) : DyingHasWire s' := by
  cases c with
  | logOutCmd =>
    rw [← fst_of_some_eq hs]
    unfold log_out
    split
    · exact dhw_advance_inactive _
    · exact dhw_advance_inactive _
    · exact dhw_advance_inactive _
    · exact h
  | closeCmd =>
    rw [← fst_of_some_eq hs]
    unfold close
    split
    · split
      · exact dhw_advance_inactive _
      · exact h
      · exact dhw_advance_dying _
    · exact dhw_advance_inactive _
    · exact h
    · exact h
  | reviveCmd =>
    rw [← fst_of_some_eq hs]
    exact dhw_revive_if_needed _ h
  | shutdownCmd =>
    rw [← fst_of_some_eq hs]
    unfold shutdown_and_wait
    split
    · exact dhw_advance_inactive _
    · exact dhw_advance_inactive _
    · exact h
  | accessTokenCmd =>
    rw [← fst_of_some_eq hs]
    unfold update_access_token
    dsimp only []
    split
    · exact dhw_advance_active _
    · exact h
  | handleErrCmd e => exact dhw_handle_error s e s' evs h hs
  | uploadWaitCmd count =>
    rw [← fst_of_some_eq hs]
    unfold upload_wait_complete
    split
    · exact dhw_advance_inactive _
    · exact h
  | waitForCompletionCmd direction callback =>
    rw [← fst_of_some_eq hs]
    unfold add_completion_callback
    cases hw : s.wire_session <;>
      (intro hst
       have := h hst
       simp_all)
  | wireCompletionCmd id code =>
    rw [← fst_of_some_eq hs]
    unfold wire_completion_fired
    split
    · intro hst
      exact h hst
    · exact h

/-- C10: entering Dying with no wire session immediately advances the
session to Inactive; consequently in every reachable quiescent state, a
session in the Dying state owns a wire session. -/
theorem dying_implies_wire_session :
    (∀ s : SyncSession, s.wire_session = none →
      (advance_dying s).1.state = SessionState.inactive) ∧
    (∀ s : SyncSession, Reachable s → s.state = SessionState.dying →
      s.wire_session.isSome = true) := by
  constructor
  · intro s hw
    unfold advance_dying enter_dying
    simp only [hw]
    rfl
  · intro s hr
    induction hr with
    | init config force => intro h; exact absurd h (by simp [initial_session])
    | step s c s' evs hr hs ih => exact dhw_session_step s c s' evs ih hs

/-- Reaching a Dying session concretely: construct, revive to Active (which
creates the wire session), then close under the AfterChangesUploaded stop
policy. -/
def c10_config : SyncConfig :=
  { stop_policy := SyncSessionStopPolicy.afterChangesUploaded
    client_resync_mode := ClientResyncMode.manual
    cancel_waits_on_nonfatal_error := false
    has_error_handler := false
    user := none }

/-- The freshly constructed session. -/
def c10_s0 : SyncSession := initial_session c10_config false

/-- After `revive_if_needed`. -/
def c10_s1 : SyncSession := (revive_if_needed c10_s0).1

/-- After `close` (stop policy AfterChangesUploaded): a Dying session. -/
def c10_dying : SyncSession := (close c10_s1).1

theorem c10_dying_reachable : Reachable c10_dying :=
  Reachable.step c10_s1 Cmd.closeCmd c10_dying (close c10_s1).2
    (Reachable.step c10_s0 Cmd.reviveCmd c10_s1 (revive_if_needed c10_s0).2
      (Reachable.init c10_config false) rfl)
    rfl

/-- Witness for C10: the no-wire part at a concrete session, and the
invariant applied to a concrete reachable Dying session. -/
theorem dying_implies_wire_session_witness :
    (advance_dying (initial_session c10_config false)).1.state = SessionState.inactive ∧
    (c10_dying.state = SessionState.dying ∧ c10_dying.wire_session.isSome = true) :=
  ⟨dying_implies_wire_session.1 (initial_session c10_config false) rfl,
   by decide,
   dying_implies_wire_session.2 c10_dying c10_dying_reachable (by decide)⟩

/-! ## Progress tracker (`SyncProgressNotifier`, `sync_session.cpp`) -/

/-- `SyncProgressNotifier::Progress`: the snapshot stored by `update`. -/
structure Progress where
  uploadable : Nat
  downloadable : Nat
  uploaded : Nat
  downloaded : Nat
  snapshot_version : Nat
deriving DecidableEq

/-- `SyncProgressNotifier::NotifierPackage` (minus the callback function,
identified instead by its registration token). -/
structure NotifierPackage where
  captured_transferrable : Option Nat
  snapshot_version : Nat
  is_streaming : Bool
  is_download : Bool
deriving DecidableEq

/-- `NotifierPackage::create_invocation`: returns the updated package (the
captured transferrable persists in the registration map), the `is_expired`
out-parameter, and the `(transferred, transferrable)` pair the queued
invocation will report — `none` for the no-op invocation returned when a
non-streaming upload registration has no authoritative baseline yet. -/
def create_invocation (p : NotifierPackage) (cur : Progress) :
    NotifierPackage × Bool × Option (Nat × Nat) :=
  let transferred := if p.is_download then cur.downloaded else cur.uploaded
  if p.is_streaming then
    let transferrable := if p.is_download then cur.downloadable else cur.uploadable
    (p, false, some (transferred, transferrable))
  else
    match p.captured_transferrable with
    | some t => (p, decide (t ≤ transferred), some (transferred, t))
    | none =>
      if p.is_download then
        let t := cur.downloadable
        ({ p with captured_transferrable := some t }, decide (t ≤ transferred),
         some (transferred, t))
      else if cur.snapshot_version < p.snapshot_version then
        (p, false, none)
      else
        let t := cur.uploadable
        ({ p with captured_transferrable := some t }, decide (t ≤ transferred),
         some (transferred, t))

/-- The state of a `SyncProgressNotifier`: the registration map (kept as a
token-keyed association list in registration order), the current snapshot,
and the counters. -/
structure SyncProgressNotifier where
  packages : List (Nat × NotifierPackage)
  current_progress : Option Progress
  local_transaction_version : Nat
  token_counter : Nat
deriving DecidableEq

/-- `SyncProgressNotifier::register_callback`: returns the new notifier
state, the token handed back (0 when the immediately-expired registration is
dropped), and the immediately-reported pair, if any. -/
def register_callback (n : SyncProgressNotifier) (direction : Direction) (is_streaming : Bool) :
    SyncProgressNotifier × Nat × Option (Nat × Nat) :=
  let token := n.token_counter
  let package : NotifierPackage :=
    { captured_transferrable := none
      snapshot_version := n.local_transaction_version
      is_streaming := is_streaming
      is_download := decide (direction = Direction.download) }
  match n.current_progress with
  | none =>
    ({ n with token_counter := token + 1, packages := n.packages ++ [(token, package)] },
     token, none)
  | some cur =>
    let r := create_invocation package cur
    if r.2.1 then ({ n with token_counter := token + 1 }, 0, r.2.2)
    else
      ({ n with token_counter := token + 1, packages := n.packages ++ [(token, r.1)] },
       token, r.2.2)

/-- One reported invocation: `(token, transferred, transferrable)`. -/
abbrev Report := Nat × Nat × Nat

/-- The `update` loop over the registration map: compute each registration's
invocation against the new snapshot and erase the ones now expired. -/
def process_packages (cur : Progress) :
    List (Nat × NotifierPackage) → List (Nat × NotifierPackage) × List Report
  | [] => ([], [])
  | (tok, p) :: rest =>
    let r := create_invocation p cur
    let tail := process_packages cur rest
    let here : List Report :=
      match r.2.2 with
      | none => []
      | some pair => [(tok, pair)]
    (if r.2.1 then tail.1 else (tok, r.1) :: tail.1, here ++ tail.2)

/-- `SyncProgressNotifier::update`: ignored entirely for
`download_version = 0`; otherwise replace the snapshot, process every
registration, erase the expired ones, and (after releasing the lock) run the
collected invocations — the returned reports, in registration-map order. -/
def notifier_update (n : SyncProgressNotifier)
    (downloaded downloadable uploaded uploadable download_version snapshot_version : Nat) :
    SyncProgressNotifier × List Report :=
  if download_version = 0 then (n, [])
  else
    let cur : Progress :=
      { uploadable := uploadable, downloadable := downloadable, uploaded := uploaded,
        downloaded := downloaded, snapshot_version := snapshot_version }
    let r := process_packages cur n.packages
    ({ n with current_progress := some cur, packages := r.1 }, r.2)

/-- `SyncProgressNotifier::set_local_version`. -/
def set_local_version (n : SyncProgressNotifier) (snapshot_version : Nat) :
    SyncProgressNotifier :=
  { n with local_transaction_version := snapshot_version }

/-- The argument tuple of one `update` call. -/
structure UpdateArgs where
  downloaded : Nat
  downloadable : Nat
  uploaded : Nat
  uploadable : Nat
  download_version : Nat
  snapshot_version : Nat
deriving DecidableEq

/-- `update` applied to one argument tuple. -/
def apply_update (n : SyncProgressNotifier) (a : UpdateArgs) :
    SyncProgressNotifier × List Report :=
  notifier_update n a.downloaded a.downloadable a.uploaded a.uploadable
    a.download_version a.snapshot_version

/-- A sequence of `update` calls, collecting every reported invocation in
order. -/
def run_updates : SyncProgressNotifier → List UpdateArgs → SyncProgressNotifier × List Report
  | n, [] => (n, [])
  | n, a :: as =>
    let r := apply_update n a
    let rest := run_updates r.1 as
    (rest.1, r.2 ++ rest.2)

/-- The `(transferred, transferrable)` pairs reported to the registration
holding token `t`, in order. -/
def reports_for (reps : List Report) (t : Nat) : List (Nat × Nat) :=
  (reps.filter (fun r => r.1 == t)).map (fun r => r.2)

/-! ## Claim C8: upload registration no-op before a baseline exists -/

/-- C8: a non-streaming upload-direction registration with no captured
transferrable baseline whose local snapshot version is strictly greater
than the current progress snapshot version produces a no-op invocation:
no `(transferred, transferrable)` pair is reported, no baseline is
captured, and the registration is not expired. -/
theorem upload_registration_noop_before_baseline (p : NotifierPackage) (cur : Progress)
    (hstream : p.is_streaming = false) (hdir : p.is_download = false)
    (hcap : p.captured_transferrable = none)
    (hver : cur.snapshot_version < p.snapshot_version) :
    create_invocation p cur = (p, false, none) := by
  simp [create_invocation, hstream, hdir, hcap, hver]

/-- Witness for C8 at a concrete package and snapshot. -/
theorem upload_registration_noop_witness :
    create_invocation
      { captured_transferrable := none, snapshot_version := 5, is_streaming := false,
        is_download := false }
      { uploadable := 100, downloadable := 0, uploaded := 40, downloaded := 0,
        snapshot_version := 3 } =
      ({ captured_transferrable := none, snapshot_version := 5, is_streaming := false,
         is_download := false }, false, none) :=
  upload_registration_noop_before_baseline _ _ rfl rfl rfl (by decide)

/-! ## Claim C7: monotonicity and boundedness of reported progress -/

/-- The boundedness half of claim C7, over the report sequence of one
registration: every reported `transferred` is at most the `transferrable`
reported in the same or a later invocation. -/
def ReportsBounded (rs : List (Nat × Nat)) : Prop :=
  ∀ i : Fin rs.length, ∃ j : Fin rs.length, i ≤ j ∧ (rs.get i).1 ≤ (rs.get j).2

instance (rs : List (Nat × Nat)) : Decidable (ReportsBounded rs) :=
  inferInstanceAs (Decidable (∀ i : Fin rs.length, ∃ j : Fin rs.length,
    i ≤ j ∧ (rs.get i).1 ≤ (rs.get j).2))

/-- An empty notifier. -/
def c7_notifier0 : SyncProgressNotifier :=
  { packages := [], current_progress := none, local_transaction_version := 0,
    token_counter := 1 }

/-- A non-streaming download registration made before any progress snapshot
exists (so it is simply stored, holding token 1). -/
def c7_registered : SyncProgressNotifier :=
  (register_callback c7_notifier0 Direction.download false).1

/-- Two well-formed updates: the second one's downloaded counter (15)
overtakes the downloadable total (10) that the registration captured as its
transferrable baseline at the first update. -/
def c7_args : List UpdateArgs :=
  [{ downloaded := 0, downloadable := 10, uploaded := 0, uploadable := 0,
     download_version := 1, snapshot_version := 1 },
   { downloaded := 15, downloadable := 20, uploaded := 0, uploadable := 0,
     download_version := 2, snapshot_version := 2 }]

/-- C7 counterexample: the registration receives the invocations
`(0, 10)` then `(15, 10)` — the final invocation reports
`transferred = 15 > 10 = transferrable`, and there is no later invocation
(the registration expires and is erased), so `transferred` exceeds the
`transferrable` of every same-or-later invocation, even though every
update is well-formed (`download_version > 0`, `downloaded ≤ downloadable`,
`uploaded ≤ uploadable`, counters non-decreasing). -/
theorem progress_bound_counterexample :
    reports_for (run_updates c7_registered c7_args).2 1 = [(0, 10), (15, 10)] ∧
    (c7_args.all fun a => decide (0 < a.download_version) &&
      decide (a.downloaded ≤ a.downloadable) && decide (a.uploaded ≤ a.uploadable)) = true ∧
    ¬ ReportsBounded [(0, 10), (15, 10)] := by
  refine ⟨by decide, by decide, by decide⟩

/-- The counter that an invocation of a registration with direction flag
`is_download` reports as `transferred`, as a function of the update
arguments. -/
def pick (is_download : Bool) (a : UpdateArgs) : Nat :=
  if is_download then a.downloaded else a.uploaded

/-- The live transferrable total for direction flag `is_download`. -/
def pickable (is_download : Bool) (a : UpdateArgs) : Nat :=
  if is_download then a.downloadable else a.uploadable

/-- Componentwise order on the transferred counters of two update calls. -/
def arg_le (a b : UpdateArgs) : Prop :=
  a.downloaded ≤ b.downloaded ∧ a.uploaded ≤ b.uploaded

instance (a b : UpdateArgs) : Decidable (arg_le a b) :=
  inferInstanceAs (Decidable (a.downloaded ≤ b.downloaded ∧ a.uploaded ≤ b.uploaded))

/-- Well-formedness of one update call: transferred counters do not exceed
the transferrable totals. -/
def arg_wf (a : UpdateArgs) : Prop :=
  a.downloaded ≤ a.downloadable ∧ a.uploaded ≤ a.uploadable

instance (a : UpdateArgs) : Decidable (arg_wf a) :=
  inferInstanceAs (Decidable (a.downloaded ≤ a.downloadable ∧ a.uploaded ≤ a.uploadable))

/-- The (direction, streaming) flags of the registration holding token `t`,
if one is registered. -/
def flags_of (n : SyncProgressNotifier) (t : Nat) : Option (Bool × Bool) :=
  (n.packages.lookup t).map (fun p => (p.is_download, p.is_streaming))

theorem create_invocation_flags (p : NotifierPackage) (cur : Progress) :
    (create_invocation p cur).1.is_download = p.is_download ∧
    (create_invocation p cur).1.is_streaming = p.is_streaming := by
  unfold create_invocation
  repeat' split
  all_goals simp

theorem create_invocation_report (p : NotifierPackage) (cur : Progress) (tr tb : Nat)
    (h : (create_invocation p cur).2.2 = some (tr, tb)) :
    tr = (if p.is_download then cur.downloaded else cur.uploaded) ∧
    (p.is_streaming = true →
      tb = (if p.is_download then cur.downloadable else cur.uploadable)) := by
  unfold create_invocation at h
  simp only [] at h
  repeat' split at h
  all_goals simp_all

theorem lookup_eq_none_of_not_mem (t : Nat) (l : List (Nat × NotifierPackage))
    (h : t ∉ l.map Prod.fst) : l.lookup t = none := by
  induction l with
  | nil => rfl
  | cons q rest ih =>
    simp only [List.map_cons, List.mem_cons] at h
    push_neg at h
    have hne : (t == q.1) = false := beq_eq_false_iff_ne.mpr h.1
    simp [List.lookup, hne, ih h.2]

theorem process_packages_keys (cur : Progress) (pkgs : List (Nat × NotifierPackage)) :
    ((process_packages cur pkgs).1.map Prod.fst).Sublist (pkgs.map Prod.fst) := by
  induction pkgs with
  | nil => simp [process_packages]
  | cons q rest ih =>
    obtain ⟨tok, p⟩ := q
    simp only [process_packages, List.map_cons]
    split
    · exact ih.cons tok
    · exact ih.cons₂ tok

theorem reports_for_append (r1 r2 : List Report) (t : Nat) :
    reports_for (r1 ++ r2) t = reports_for r1 t ++ reports_for r2 t := by
  simp [reports_for, List.filter_append]

theorem process_packages_absent (cur : Progress) (pkgs : List (Nat × NotifierPackage)) (t : Nat)
    (h : pkgs.lookup t = none) :
    (process_packages cur pkgs).1.lookup t = none ∧
    reports_for (process_packages cur pkgs).2 t = [] := by
  induction pkgs with
  | nil => exact ⟨rfl, rfl⟩
  | cons q rest ih =>
    obtain ⟨tok, p⟩ := q
    by_cases ht : t = tok
    · simp [List.lookup, ht] at h
    · have hbeq : (t == tok) = false := beq_eq_false_iff_ne.mpr ht
      have hbeq2 : (tok == t) = false := beq_eq_false_iff_ne.mpr (Ne.symm ht)
      simp only [List.lookup, hbeq] at h
      obtain ⟨ih1, ih2⟩ := ih h
      simp only [process_packages]
      constructor
      · split
        · exact ih1
        · simp [List.lookup, hbeq, ih1]
      · rw [reports_for_append, ih2]
        split
        · simp [reports_for]
        · simp [reports_for, hbeq2]

theorem process_packages_present (cur : Progress) (pkgs : List (Nat × NotifierPackage))
    (t : Nat) (p : NotifierPackage)
    (hnd : (pkgs.map Prod.fst).Nodup) (h : pkgs.lookup t = some p) :
    (process_packages cur pkgs).1.lookup t =
      (if (create_invocation p cur).2.1 then none else some (create_invocation p cur).1) ∧
    reports_for (process_packages cur pkgs).2 t =
      (match (create_invocation p cur).2.2 with
       | none => []
       | some pair => [pair]) := by
  induction pkgs with
  | nil => exact absurd h (by simp [List.lookup])
  | cons q rest ih =>
    obtain ⟨tok, p0⟩ := q
    simp only [List.map_cons, List.nodup_cons] at hnd
    by_cases ht : t = tok
    · have hbeq : (t == tok) = true := beq_iff_eq.mpr ht
      have hbeq2 : (tok == t) = true := beq_iff_eq.mpr ht.symm
      simp only [List.lookup, hbeq] at h
      obtain rfl : p0 = p := Option.some.inj h
      have hrest : rest.lookup t = none :=
        lookup_eq_none_of_not_mem t rest (ht ▸ hnd.1)
      obtain ⟨ha1, ha2⟩ := process_packages_absent cur rest t hrest
      simp only [process_packages]
      constructor
      · split
        · next hexp => simp [hexp, ha1]
        · next hexp => simp only [List.lookup, hbeq]
      · rw [reports_for_append, ha2]
        split <;> simp_all [reports_for, hbeq2]
    · have hbeq : (t == tok) = false := beq_eq_false_iff_ne.mpr ht
      have hbeq2 : (tok == t) = false := beq_eq_false_iff_ne.mpr (Ne.symm ht)
      simp only [List.lookup, hbeq] at h
      obtain ⟨ih1, ih2⟩ := ih hnd.2 h
      simp only [process_packages]
      constructor
      · split
        · exact ih1
        · simp only [List.lookup, hbeq]
          exact ih1
      · rw [reports_for_append, ih2]
        split <;> simp [reports_for, hbeq2]

theorem apply_update_nodup (n : SyncProgressNotifier) (a : UpdateArgs)
    (hnd : (n.packages.map Prod.fst).Nodup) :
    ((apply_update n a).1.packages.map Prod.fst).Nodup := by
  unfold apply_update notifier_update
  split
  · exact hnd
  · exact (process_packages_keys _ _).nodup hnd

theorem apply_update_absent (n : SyncProgressNotifier) (a : UpdateArgs) (t : Nat)
    (h : flags_of n t = none) :
    flags_of (apply_update n a).1 t = none ∧ reports_for (apply_update n a).2 t = [] := by
  have hl : n.packages.lookup t = none := by
    unfold flags_of at h
    cases hx : n.packages.lookup t with
    | none => rfl
    | some p =>
      rw [hx] at h
      exact Option.noConfusion h
  unfold apply_update notifier_update
  split
  · exact ⟨h, rfl⟩
  · obtain ⟨h1, h2⟩ := process_packages_absent
      { uploadable := a.uploadable, downloadable := a.downloadable, uploaded := a.uploaded,
        downloaded := a.downloaded, snapshot_version := a.snapshot_version }
      n.packages t hl
    exact ⟨by unfold flags_of; rw [show ((({ n with
        current_progress := some _, packages := _ } : SyncProgressNotifier)).packages.lookup t) =
          none from h1]; rfl, h2⟩

theorem apply_update_present (n : SyncProgressNotifier) (a : UpdateArgs) (t : Nat)
    (d st : Bool) (hnd : (n.packages.map Prod.fst).Nodup)
    (h : flags_of n t = some (d, st)) :
    (flags_of (apply_update n a).1 t = none ∨
      flags_of (apply_update n a).1 t = some (d, st)) ∧
    ((reports_for (apply_update n a).2 t).map Prod.fst).Sublist [pick d a] ∧
    (st = true → arg_wf a → ∀ r ∈ reports_for (apply_update n a).2 t, r.1 ≤ r.2) := by
  obtain ⟨p, hp, hpd, hps⟩ : ∃ p, n.packages.lookup t = some p ∧
      p.is_download = d ∧ p.is_streaming = st := by
    unfold flags_of at h
    cases hx : n.packages.lookup t with
    | none =>
      rw [hx] at h
      exact Option.noConfusion h
    | some p =>
      rw [hx] at h
      simp only [Option.map_some', Option.some.injEq, Prod.mk.injEq] at h
      exact ⟨p, rfl, h.1, h.2⟩
  unfold apply_update notifier_update
  split
  · refine ⟨Or.inr h, ?_, ?_⟩
    · exact List.nil_sublist _
    · intro _ _ r hr
      simp [reports_for] at hr
  · obtain ⟨h1, h2⟩ := process_packages_present
      { uploadable := a.uploadable, downloadable := a.downloadable, uploaded := a.uploaded,
        downloaded := a.downloaded, snapshot_version := a.snapshot_version }
      n.packages t p hnd hp
    refine ⟨?_, ?_, ?_⟩
    · unfold flags_of
      dsimp only []
      rw [h1]
      split
      · exact Or.inl rfl
      · right
        rw [Option.map_some']
        rw [(create_invocation_flags p _).1, (create_invocation_flags p _).2, hpd, hps]
    · dsimp only []
      rw [h2]
      cases hrep : (create_invocation p
          { uploadable := a.uploadable, downloadable := a.downloadable, uploaded := a.uploaded,
            downloaded := a.downloaded, snapshot_version := a.snapshot_version }).2.2 with
      | none => exact List.nil_sublist _
      | some pair =>
        obtain ⟨pair1, pair2⟩ := pair
        obtain ⟨htr, _⟩ := create_invocation_report p _ pair1 pair2 hrep
        have : pair1 = pick d a := by
          rw [htr, ← hpd]
          cases hpd2 : p.is_download <;> simp [pick, hpd2]
        simp only [List.map_cons, List.map_nil, this]
        exact List.Sublist.refl _
    · intro hst hwfa r hr
      dsimp only [] at hr
      rw [h2] at hr
      cases hrep : (create_invocation p
          { uploadable := a.uploadable, downloadable := a.downloadable, uploaded := a.uploaded,
            downloaded := a.downloaded, snapshot_version := a.snapshot_version }).2.2 with
      | none => simp [hrep] at hr
      | some pair =>
        obtain ⟨pair1, pair2⟩ := pair
        rw [hrep] at hr
        simp only [List.mem_singleton] at hr
        subst hr
        obtain ⟨htr, htb⟩ := create_invocation_report p _ pair1 pair2 hrep
        have hstream : p.is_streaming = true := hps.trans hst
        rw [htr, htb hstream]
        cases hpd2 : p.is_download <;> simp [hpd2]
        · exact hwfa.2
        · exact hwfa.1

theorem run_updates_absent (args : List UpdateArgs) :
    ∀ (n : SyncProgressNotifier) (t : Nat), flags_of n t = none →
    reports_for (run_updates n args).2 t = [] ∧
    flags_of (run_updates n args).1 t = none := by
  induction args with
  | nil =>
    intro n t h
    exact ⟨rfl, h⟩
  | cons a as ih =>
    intro n t h
    obtain ⟨h1, h2⟩ := apply_update_absent n a t h
    obtain ⟨ih1, ih2⟩ := ih (apply_update n a).1 t h1
    simp only [run_updates]
    rw [reports_for_append, h2, ih1]
    exact ⟨rfl, ih2⟩

theorem run_updates_reports (args : List UpdateArgs) :
    ∀ (n : SyncProgressNotifier) (t : Nat) (d st : Bool),
    (n.packages.map Prod.fst).Nodup →
    (flags_of n t = some (d, st) ∨ flags_of n t = none) →
    ((reports_for (run_updates n args).2 t).map Prod.fst).Sublist (args.map (pick d)) ∧
    (st = true → (∀ a ∈ args, arg_wf a) →
      ∀ r ∈ reports_for (run_updates n args).2 t, r.1 ≤ r.2) := by
  induction args with
  | nil =>
    intro n t d st hnd hf
    refine ⟨List.nil_sublist _, ?_⟩
    intro _ _ r hr
    simp [run_updates, reports_for] at hr
  | cons a as ih =>
    intro n t d st hnd hf
    have hnd' := apply_update_nodup n a hnd
    simp only [run_updates, List.map_cons]
    rw [reports_for_append]
    rcases hf with hf | hf
    · obtain ⟨hflags, hsub, hbound⟩ := apply_update_present n a t d st hnd hf
      obtain ⟨ihsub, ihbound⟩ := ih (apply_update n a).1 t d st hnd'
        (hflags.elim Or.inr Or.inl)
      constructor
      · rw [List.map_append]
        exact hsub.append ihsub
      · intro hst hwf r hr
        rw [List.mem_append] at hr
        rcases hr with hr | hr
        · exact hbound hst (hwf a (List.mem_cons_self a as)) r hr
        · exact ihbound hst (fun b hb => hwf b (List.mem_cons_of_mem a hb)) r hr
    · obtain ⟨h1, h2⟩ := apply_update_absent n a t hf
      obtain ⟨ih1, ih2⟩ := run_updates_absent as (apply_update n a).1 t h1
      rw [h2, ih1]
      refine ⟨List.nil_sublist _, ?_⟩
      intro _ _ r hr
      simp at hr

/-- C7 (amended): provided the transferred counters fed to successive
`update` calls never decrease, the `transferred` values reported to any one
registration never decrease across its successive invocations; and for a
*streaming* registration, whenever every update satisfies
`downloaded ≤ downloadable` and `uploaded ≤ uploadable`, every reported
`transferred` is at most the `transferrable` reported in the same
invocation.  (A non-streaming registration's `transferred` may exceed its
captured `transferrable` baseline in its final invocation, upon which the
registration expires and is removed — see the counterexample.) -/
theorem progress_reports_monotone (n : SyncProgressNotifier) (args : List UpdateArgs) (t : Nat)
    (hnd : (n.packages.map Prod.fst).Nodup)
    (hmono : List.Chain' arg_le args)
    (hwf : ∀ a ∈ args, arg_wf a) :
    List.Chain' (fun r r' : Nat × Nat => r.1 ≤ r'.1)
      (reports_for (run_updates n args).2 t) ∧
    (∀ d : Bool, flags_of n t = some (d, true) →
      ∀ r ∈ reports_for (run_updates n args).2 t, r.1 ≤ r.2) := by
  constructor
  · cases hfc : flags_of n t with
    | none =>
      rw [(run_updates_absent args n t hfc).1]
      exact List.chain'_nil
    | some fl =>
      obtain ⟨d, st⟩ := fl
      have hsub := (run_updates_reports args n t d st hnd (Or.inl hfc)).1
      have hargs : List.Chain' (fun x y : Nat => x ≤ y) (args.map (pick d)) := by
        rw [List.chain'_map]
        refine hmono.imp ?_
        intro a b hab
        cases d
        · simpa [pick] using hab.2
        · simpa [pick] using hab.1
      have hchain := hargs.sublist hsub
      exact (List.chain'_map Prod.fst).mp hchain
  · intro d hfd r hr
    exact (run_updates_reports args n t d true hnd (Or.inl hfd)).2 rfl hwf r hr

/-- A streaming download registration package. -/
def c7w_package : NotifierPackage :=
  { captured_transferrable := none, snapshot_version := 0, is_streaming := true,
    is_download := true }

/-- A notifier holding one streaming download registration (token 1). -/
def c7w_notifier : SyncProgressNotifier :=
  { packages := [(1, c7w_package)], current_progress := none,
    local_transaction_version := 0, token_counter := 2 }

/-- Two monotone, well-formed updates. -/
def c7w_args : List UpdateArgs :=
  [{ downloaded := 3, downloadable := 10, uploaded := 0, uploadable := 0,
     download_version := 1, snapshot_version := 1 },
   { downloaded := 7, downloadable := 12, uploaded := 0, uploadable := 0,
     download_version := 2, snapshot_version := 2 }]

/-- Witness for C7 (amended) at a concrete notifier and update sequence. -/
theorem progress_reports_monotone_witness :
    List.Chain' (fun r r' : Nat × Nat => r.1 ≤ r'.1)
      (reports_for (run_updates c7w_notifier c7w_args).2 1) :=
  (progress_reports_monotone c7w_notifier c7w_args 1 (by decide)
    (by simp [c7w_args, List.chain'_cons, arg_le]) (by decide)).1

end RealmSync
